import Mathlib

/-!
Verification development for the WooCommerce → accounting export script
(`app.py`).  The script fetches orders from a paginated HTTP resource,
sorts them by identifier, filters the completed ones, assigns sequential
invoice numbers, flattens line items into ledger rows (with an optional
item-name resolver loaded from a spreadsheet), aggregates net revenue,
and serializes CSV/Excel artifacts.

Modelling conventions:
* JSON scalar values are modelled by `JVal` (null, string, number); numbers
  are exact rationals standing for the script's floats — every claim under
  study concerns which values flow where, with example values that are
  exactly representable, not float rounding.
* A field read with `dict.get(k, d)` is modelled as an `Option` field with
  `getD`; a field read with `dict[k]` is a required structure field.
* Python `str.strip` / `str.lower` / `str.capitalize` are modelled by
  executable character-list functions (`pyStrip`, `pyLower`,
  `pyCapitalize`) on the ASCII fragment the script's data uses.
* Date parsing/re-formatting (`dateutil.parse` + `strftime`) is abstracted
  as carrying the raw `date_created` string; no claim concerns date text.
-/

namespace WooExport

/-- A JSON scalar value as handled by the script: null, string, or number. -/
inductive JVal where
  | jnull
  | jstr (s : String)
  | jnum (q : ℚ)
deriving DecidableEq

/-- Python truthiness of a JSON scalar: `None`, `""` and `0` are falsy. -/
def truthy : JVal → Bool
  | .jnull => false
  | .jstr s => s ≠ ""
  | .jnum q => q ≠ 0

/-- Python `a or b` on JSON scalars: `b` when `a` is falsy, else `a`. -/
def pyOr (a b : JVal) : JVal := if truthy a then a else b

/-- Python `dict.get(k)` with no default: a missing (or null) field reads as null. -/
def optVal (v : Option JVal) : JVal := v.getD .jnull

/-- Remove leading and trailing whitespace from a character list. -/
def stripWs (cs : List Char) : List Char :=
  ((cs.dropWhile Char.isWhitespace).reverse.dropWhile Char.isWhitespace).reverse

/-- Python `str.strip()` (whitespace on both ends). -/
def pyStrip (s : String) : String := String.mk (stripWs s.toList)

/-- Python `str.lower()` on the ASCII fragment. -/
def pyLower (s : String) : String := String.mk (s.toList.map Char.toLower)

/-- Python `str.capitalize()`: first character upper-cased, rest lower-cased. -/
def pyCapitalize (s : String) : String :=
  match s.toList with
  | [] => ""
  | c :: rest => String.mk (c.toUpper :: rest.map Char.toLower)

/-- Decimal value of a digit list, most significant first. -/
def digitsVal (ds : List Char) : Nat :=
  ds.foldl (fun a c => a * 10 + (c.toNat - 48)) 0

/-- Signed integer used for a float exponent: optional sign then digits. -/
def parseSignedNat (cs : List Char) : Option (Bool × Nat) :=
  let p : Bool × List Char :=
    match cs with
    | '-' :: t => (true, t)
    | '+' :: t => (false, t)
    | _ => (false, cs)
  if p.2 ≠ [] ∧ p.2.all Char.isDigit then some (p.1, digitsVal p.2) else none

/-- Scanner for Python `float(s)` on the fragment the script's money fields
use: surrounding whitespace, optional sign, decimal digits with an optional
point, optional exponent.  Returns a mantissa and a power-of-ten exponent,
or `none` where `float` raises `ValueError`.  (Underscores in literals,
`inf` and `nan` and non-ASCII digits are outside the modelled fragment; no
claim depends on them.) -/
def parseFloatRep (s : String) : Option (Int × Int) :=
  let cs0 := stripWs s.toList
  let sgn : Int := match cs0 with | '-' :: _ => -1 | _ => 1
  let cs := match cs0 with | '-' :: t => t | '+' :: t => t | _ => cs0
  let ip := cs.takeWhile Char.isDigit
  let r1 := cs.dropWhile Char.isDigit
  let fr : Option (List Char × List Char) :=
    match r1 with
    | '.' :: t => some (t.takeWhile Char.isDigit, t.dropWhile Char.isDigit)
    | _ => none
  let fp := (fr.getD ([], r1)).1
  let r2 := (fr.getD ([], r1)).2
  if ip = [] ∧ fp = [] then none
  else
    let mant : Int := sgn * (digitsVal (ip ++ fp) : Int)
    let e0 : Int := -(fp.length : Int)
    match r2 with
    | [] => some (mant, e0)
    | 'e' :: t =>
      (parseSignedNat t).map fun p => (mant, e0 + (if p.1 then -(p.2 : Int) else (p.2 : Int)))
    | 'E' :: t =>
      (parseSignedNat t).map fun p => (mant, e0 + (if p.1 then -(p.2 : Int) else (p.2 : Int)))
    | _ => none

/-- Rational value of a scanned mantissa/exponent pair. -/
def ratOfRep (p : Int × Int) : ℚ :=
  if 0 ≤ p.2 then (p.1 : ℚ) * 10 ^ p.2.toNat else (p.1 : ℚ) / 10 ^ (-p.2).toNat

/-- Python `float(s)` on a string: `none` models a raised `ValueError`. -/
def parseDecimal (s : String) : Option ℚ := (parseFloatRep s).map ratOfRep

/-- Python `float(x)` on a JSON scalar; `none` models a raised exception
(`TypeError` on null, `ValueError` on a bad string). -/
def pyFloatOpt : JVal → Option ℚ
  | .jnull => none
  | .jstr s => parseDecimal s
  | .jnum q => some q

/-- The function `to_float` from `app.py` lines 84-90: `None` and `""` coerce to `0.0`
up front, any exception from `float(x)` is swallowed into `0.0`. -/
def to_float (x : JVal) : ℚ :=
  if x = .jnull ∨ x = .jstr "" then 0
  else (pyFloatOpt x).getD 0

/-- One entry of a line item's `meta_data` array (`key` / `value` fields,
each read with `.get` and a default). -/
structure MetaEntry where
  key : Option String
  value : Option JVal
deriving DecidableEq

/-- One value of `name_mapping` (built from `item_database.xlsx`, lines
31-43): Zoho name, HSN code and usage unit, all stored as stripped
strings, `""` when the cell was blank. -/
structure MapEntry where
  zoho : String
  hsn : String
  usage_unit : String
deriving DecidableEq

/-- A line item of an order; every field the script reads. -/
structure LineItem where
  name : Option String
  typ : Option String
  quantity : Option JVal
  price : Option JVal
  tax_class : Option JVal
  meta_data : Option (List MetaEntry)
deriving DecidableEq

/-- A refund record of an order; the three field names the script probes. -/
structure Refund where
  amount : Option JVal
  total : Option JVal
  refund_total : Option JVal
deriving DecidableEq

/-- The `billing` sub-object of an order. -/
structure Billing where
  first_name : Option String
  last_name : Option String
  state : Option String
deriving DecidableEq

/-- An order as fetched from the API; `id`, `status`, `date_created` and
`billing` are read with `[]` (required), the rest with `.get`. -/
structure Order where
  id : Nat
  status : String
  date_created : String
  billing : Billing
  currency : Option String
  shipping_total : Option JVal
  discount_total : Option JVal
  total : Option JVal
  refunds : Option (List Refund)
  line_items : Option (List LineItem)
deriving DecidableEq

/-- The `name_mapping` dictionary: lowercase stripped raw name → entry.
Modelled as an association list; `lookupName` takes the first match,
mirroring both dictionary lookup and the first-match-wins build loop. -/
abbrev NameMapping := List (String × MapEntry)

/-- Dictionary lookup in `name_mapping`. -/
def lookupName (m : NameMapping) (k : String) : Option MapEntry :=
  (m.find? (fun p => p.1 == k)).map Prod.snd

/-- A meta value as the script turns it into a string (lines 164-170):
missing reads as the default `""`, null becomes `""`, a string stays
itself.  (Python `str()` of a non-string meta value is outside the
modelled fragment; no claim depends on it.) -/
def metaValueStr (v : Option JVal) : String :=
  match v.getD (.jstr "") with
  | .jnull => ""
  | .jstr s => s
  | .jnum q => toString q

/-- Lines 159-170: scan `meta_data` for the `hsn` and `usage unit` keys
(case-insensitive), later entries overwriting earlier ones. -/
def extractMeta (metas : List MetaEntry) : String × String :=
  metas.foldl
    (fun acc m =>
      let key := pyLower (m.key.getD "")
      let acc1 := if key = "hsn" then (metaValueStr m.value, acc.2) else acc
      if key = "usage unit" then (acc1.1, metaValueStr m.value) else acc1)
    ("", "")

/-- Lines 173-174: the lookup key is the stripped, lower-cased raw name. -/
def itemNameKey (it : LineItem) : String := pyLower (pyStrip (it.name.getD ""))

/-- Result of resolving one line item's name, HSN code and usage unit. -/
structure Resolved where
  name : String
  hsn : String
  usage_unit : String
deriving DecidableEq

/-- Lines 159-195: metadata extraction followed by the `name_mapping`
override.  On a match the name becomes the entry's Zoho name (the `zoho`
key is always present in the mapping, so the `.get` default never fires),
while HSN and usage unit are overridden only by non-empty values. -/
def resolveItem (mapping : NameMapping) (it : LineItem) : Resolved :=
  let em := extractMeta (it.meta_data.getD [])
  match lookupName mapping (itemNameKey it) with
  | some e =>
      { name := e.zoho
        hsn := if e.hsn ≠ "" then e.hsn else em.1
        usage_unit := if e.usage_unit ≠ "" then e.usage_unit else em.2 }
  | none => { name := it.name.getD "", hsn := em.1, usage_unit := em.2 }

/-- Lines 198-202: `tax_class` falls back to `""` when falsy, then is
coerced with `float(...)`, exceptions giving `0.0`. -/
def itemTaxPctOf (it : LineItem) : ℚ :=
  (pyFloatOpt (pyOr (optVal it.tax_class) (.jstr ""))).getD 0

/-- Line 148: `invoice_number = invoice_prefix + format(seq, "05d")`;
Python `{n:05d}` pads with zeros to a minimum width of five. -/
def pad5 (n : Nat) : String :=
  let s := toString n
  String.mk (List.replicate (5 - s.length) '0') ++ s

/-- The invoice number built from the user's invoice prefix and a
sequence number. -/
def invoiceNumberStr (pfx : String) (seq : Nat) : String := pfx ++ pad5 seq

/-- Line 151: customer name from the billing first and last names. -/
def customerNameOf (o : Order) : String :=
  pyStrip ((o.billing.first_name.getD "") ++ " " ++ (o.billing.last_name.getD ""))

/-- One exported CSV record (lines 204-227), field for field. -/
structure LedgerRow where
  invoiceNumber : String
  purchaseOrder : Nat
  invoiceDate : String
  invoiceStatus : String
  customerName : String
  placeOfSupply : String
  currencyCode : String
  itemName : String
  hsnSac : String
  itemType : String
  quantity : JVal
  usageUnit : String
  itemPrice : ℚ
  isInclusiveTax : String
  itemTaxPct : ℚ
  discountType : String
  isDiscountBeforeTax : String
  entityDiscountAmount : ℚ
  shippingCharge : ℚ
  itemTaxExemptionReason : String
  supplyType : String
  gstTreatment : String
deriving DecidableEq

/-- Lines 147-227: the row emitted for one line item of one order. -/
def buildRow (mapping : NameMapping) (invNum : String) (o : Order) (it : LineItem) : LedgerRow :=
  let res := resolveItem mapping it
  { invoiceNumber := invNum
    purchaseOrder := o.id
    invoiceDate := o.date_created
    invoiceStatus := pyCapitalize o.status
    customerName := customerNameOf o
    placeOfSupply := o.billing.state.getD ""
    currencyCode := o.currency.getD ""
    itemName := res.name
    hsnSac := res.hsn
    itemType := it.typ.getD "goods"
    quantity := it.quantity.getD (.jnum 0)
    usageUnit := res.usage_unit
    itemPrice := to_float (it.price.getD (.jnum 0))
    isInclusiveTax := "FALSE"
    itemTaxPct := itemTaxPctOf it
    discountType := "entity_level"
    isDiscountBeforeTax := "TRUE"
    entityDiscountAmount := to_float (o.discount_total.getD (.jnum 0))
    shippingCharge := to_float (o.shipping_total.getD (.jnum 0))
    itemTaxExemptionReason := "ITEM EXEMPT FROM GST"
    supplyType := "Exempted"
    gstTreatment := "consumer" }

/-- Lines 157-228: the inner `for item in order.get("line_items", [])`
loop appends one row per line item, all with the same invoice number. -/
def processOrder (mapping : NameMapping) (pfx : String) (seq : Nat) (o : Order) : List LedgerRow :=
  (o.line_items.getD []).map (buildRow mapping (invoiceNumberStr pfx seq) o)

/-- Body of the outer `for order in completed_orders` loop (lines
146-228): rows are appended, the sequence counter advances by one. -/
def flattenStep (mapping : NameMapping) (pfx : String)
    (acc : List LedgerRow × Nat) (o : Order) : List LedgerRow × Nat :=
  (acc.1 ++ processOrder mapping pfx acc.2 o, acc.2 + 1)

/-- The outer flattening loop: starts from no rows and the user's start
sequence, returns the accumulated rows and the final counter value. -/
def flattenCompleted (mapping : NameMapping) (pfx : String) (start : Nat)
    (cs : List Order) : List LedgerRow × Nat :=
  cs.foldl (flattenStep mapping pfx) ([], start)

/-- Line 139: the status filter (case-insensitive equality with
`"completed"`). -/
def isCompleted (o : Order) : Bool := pyLower o.status == "completed"

/-- Line 130: `all_orders.sort(key=lambda x: x["id"])`. -/
def sortedOrders (orders : List Order) : List Order :=
  orders.mergeSort (fun a b => a.id ≤ b.id)

/-- Lines 130 and 139: sort all fetched orders by id, then keep the
completed ones (filtering preserves the sorted order). -/
def completedOrders (orders : List Order) : List Order :=
  (sortedOrders orders).filter isCompleted

/-- Line 245: refund amount from the first truthy of `amount`, `total`,
`refund_total`, then `or 0`, coerced with `to_float`. -/
def refundAmount (r : Refund) : ℚ :=
  to_float (pyOr (pyOr (pyOr (optVal r.amount) (optVal r.total)) (optVal r.refund_total)) (.jnum 0))

/-- Line 245: total refunded against one order. -/
def refundTotalOf (o : Order) : ℚ :=
  ((o.refunds.getD []).map refundAmount).sum

/-- Lines 243-246: the order's net total. -/
def netTotal (o : Order) : ℚ :=
  to_float (o.total.getD (.jnum 0)) - refundTotalOf o

/-- Lines 241-247: the `total_revenue_by_order_total` accumulation loop
over the completed orders. -/
def totalRevenueByOrderTotal (cs : List Order) : ℚ :=
  cs.foldl (fun acc o => acc + netTotal o) 0

/-- One row of the Order Details sheet (lines 293-299). -/
structure DetailRow where
  invoiceNumber : String
  orderNumber : Nat
  date : String
  customerName : String
  orderTotal : ℚ
deriving DecidableEq

/-- The Order Details row built for one completed order (lines 287-299). -/
def mkDetailRow (pfx : String) (seq : Nat) (o : Order) : DetailRow :=
  { invoiceNumber := invoiceNumberStr pfx seq
    orderNumber := o.id
    date := o.date_created
    customerName := customerNameOf o
    orderTotal := netTotal o }

/-- Body of the Order Details loop (lines 286-299): one row per completed
order, with its own re-started invoice counter. -/
def detailStep (pfx : String) (acc : List DetailRow × Nat) (o : Order) : List DetailRow × Nat :=
  (acc.1 ++ [mkDetailRow pfx acc.2 o], acc.2 + 1)

/-- Lines 284-300: the Order Details rows. -/
def orderDetailsRows (pfx : String) (start : Nat) (cs : List Order) : List DetailRow :=
  (cs.foldl (detailStep pfx) ([], start)).1

/-- Line 301: the Grand Total value, the pandas sum of the sheet's
`Order Total` column. -/
def grandTotalOf (rows : List DetailRow) : ℚ :=
  (rows.map DetailRow.orderTotal).sum

/-- The artifacts a successful run serializes: the CSV rows, the Summary
sheet's revenue metric, the Order Details rows and the appended
grand-total row's value. -/
structure Artifacts where
  csvRows : List LedgerRow
  revenueMetric : ℚ
  detailRows : List DetailRow
  grandTotal : ℚ
deriving DecidableEq

/-- Outcome of one button-triggered run: a fetch error (`st.error` +
`st.stop`), one of the two warning halts (`st.warning` + `st.stop`), or a
completed run offering downloads. -/
inductive RunOutcome where
  | fetchFailed (msg : String)
  | stoppedNoOrders
  | stoppedNoCompleted
  | produced (a : Artifacts)
deriving DecidableEq

/-- Lines 93-309: the whole fetch-button handler downstream of the raw
fetch result. -/
def runPipeline (mapping : NameMapping) (pfx : String) (start : Nat)
    (fetched : Except String (List Order)) : RunOutcome :=
  match fetched with
  | .error e => .fetchFailed e
  | .ok allOrders =>
    if allOrders.isEmpty then .stoppedNoOrders
    else
      let cs := completedOrders allOrders
      if cs.isEmpty then .stoppedNoCompleted
      else
        let details := orderDetailsRows pfx start cs
        .produced
          { csvRows := (flattenCompleted mapping pfx start cs).1
            revenueMetric := totalRevenueByOrderTotal cs
            detailRows := details
            grandTotal := grandTotalOf details }

/-- Whether a run outcome carries export artifacts. -/
def producesArtifacts : RunOutcome → Bool
  | .produced _ => true
  | _ => false

/-- Whether a run outcome is the transport-error path. -/
def isFetchError : RunOutcome → Bool
  | .fetchFailed _ => true
  | _ => false

/-- The fixed page size the fetch loop requests (line 110). -/
def perPage : Nat := 100

/-- Lines 100-121: the pagination loop.  `res` maps a page number to that
request's outcome (`error` = `RequestException`, a list = the JSON body).
`reqs` is the trace of issued page requests; `fuel` bounds the number of
iterations so the function is executable, `none` meaning the loop is
still running after `fuel` requests. -/
def fetchLoop (res : Nat → Except String (List Order)) :
    Nat → Nat → List Order → List Nat → List Nat × Option (Except String (List Order))
  | 0, _, _, reqs => (reqs, none)
  | fuel + 1, page, acc, reqs =>
    match res page with
    | .error e => (reqs ++ [page], some (.error e))
    | .ok [] => (reqs ++ [page], some (.ok acc))
    | .ok orders => fetchLoop res fuel (page + 1) (acc ++ orders) (reqs ++ [page])

/-- The fetch: start with no orders at page 1 (lines 100-101). -/
def fetchAllOrders (res : Nat → Except String (List Order)) (fuel : Nat) :
    List Nat × Option (Except String (List Order)) :=
  fetchLoop res fuel 1 [] []

/-! ### Claim-side definitions (from the claims' own words, for comparison
with the code-derived definitions above) -/

/-- Modelled from claim C3's words: the refund amount is resolved from the
first PRESENT of the field names `amount`, `total`, `refund_total`,
defaulting to 0 when none is present. -/
def refundAmountFirstPresentClaim (r : Refund) : ℚ :=
  match r.amount with
  | some v => to_float v
  | none =>
    match r.total with
    | some v => to_float v
    | none =>
      match r.refund_total with
      | some v => to_float v
      | none => 0

/-- Net revenue as claim C3 words it, using first-present resolution. -/
def netRevenueClaim (cs : List Order) : ℚ :=
  (cs.map fun o => to_float (o.total.getD (.jnum 0)) -
    ((o.refunds.getD []).map refundAmountFirstPresentClaim).sum).sum

/-- The amended resolution rule matching the code: the first TRUTHY value
among `amount`, `total`, `refund_total` (absent, null, empty-string and
numeric-zero values are skipped), defaulting to 0. -/
def refundAmountFirstTruthy (r : Refund) : ℚ :=
  match [optVal r.amount, optVal r.total, optVal r.refund_total].find? truthy with
  | some v => to_float v
  | none => 0

/-! ### Sample data used by counterexamples and witnesses -/

/-- A minimal line item with the given raw name and nothing else. -/
def plainItem (nm : String) : LineItem :=
  { name := some nm, typ := none, quantity := none, price := none,
    tax_class := none, meta_data := none }

/-- A minimal completed order. -/
def baseOrder : Order :=
  { id := 1, status := "completed", date_created := "2025-04-01T10:00:00",
    billing := { first_name := some "Asha", last_name := some "K", state := some "KL" },
    currency := some "INR", shipping_total := none, discount_total := none,
    total := none, refunds := none, line_items := none }

/-- A completed order with three line items. -/
def order3Items : Order :=
  { baseOrder with line_items := some [plainItem "A", plainItem "B", plainItem "C"] }

/-- C3 counterexample refund: `amount` is present with numeric value 0
(falsy), `total` is present with `"200"`. -/
def c3CexRefund : Refund :=
  { amount := some (.jnum 0), total := some (.jstr "200"), refund_total := none }

/-- C3 counterexample order: total 1000.00 with the refund above. -/
def c3CexOrder : Order :=
  { baseOrder with total := some (.jstr "1000.00"), refunds := some [c3CexRefund] }

/-- C3's worked example: a completed order with total 1000.00 and one
refund whose `amount` is `"200.00"`. -/
def c3GoodOrder : Order :=
  { baseOrder with
    total := some (.jstr "1000.00")
    refunds := some [{ amount := some (.jstr "200.00"), total := none, refund_total := none }] }

/-- C4 counterexample mapping: the raw name maps to an EMPTY Zoho name
with a non-empty HSN. -/
def c4CexMapping : NameMapping :=
  [("protein bar", { zoho := "", hsn := "2106", usage_unit := "" })]

/-- C4 counterexample item. -/
def c4CexItem : LineItem := plainItem "Protein Bar"

/-- The spec's worked resolver entry. -/
def demoEntry : MapEntry := { zoho := "Protein Bar (50g)", hsn := "2106", usage_unit := "Nos" }

/-- Mapping holding the spec's worked resolver entry. -/
def demoMapping : NameMapping := [("protein bar", demoEntry)]

/-- An item whose own metadata has an empty HSN. -/
def demoItemNoHsn : LineItem := { plainItem "Protein Bar" with meta_data := some [] }

/-- A resolver entry whose HSN and usage-unit values are empty. -/
def demoEntryEmptyCodes : MapEntry := { zoho := "Protein Bar (50g)", hsn := "", usage_unit := "" }

/-- Mapping holding the empty-codes entry. -/
def demoMappingEmpty : NameMapping := [("protein bar", demoEntryEmptyCodes)]

/-- An item supplying its own non-empty HSN metadata. -/
def demoItemHsn : LineItem :=
  { plainItem "Protein Bar" with
    meta_data := some [{ key := some "hsn", value := some (.jstr "0714") }] }

/-- An item whose name is not in the mapping. -/
def demoItemUnmapped : LineItem := plainItem "Granola"

/-- C7 witness resource: one non-empty page, then an empty page. -/
def sampleResOk : Nat → Except String (List Order) :=
  fun n => if n = 1 then .ok [baseOrder] else .ok []

/-- C7 witness resource: one non-empty page, then an HTTP failure. -/
def sampleResErr : Nat → Except String (List Order) :=
  fun n => if n = 1 then .ok [baseOrder] else .error "HTTP 500"

/-- An order with a status that is not completed. -/
def pendingOrder : Order := { baseOrder with id := 2, status := "processing" }

/-- C9 witness order: completed, numeric total 10, no refunds, no items. -/
def c9Order : Order := { baseOrder with id := 9, total := some (.jnum 10) }

/-- The artifacts the pipeline produces for `c9Order` alone. -/
def c9Art : Artifacts :=
  { csvRows := []
    revenueMetric := 10
    detailRows := [mkDetailRow "P/" 1 c9Order]
    grandTotal := 10 }

/-- C10 mapping: the raw name maps to a canonical name that is itself a
key of the mapping with different metadata. -/
def c10Mapping : NameMapping :=
  [("raw a", { zoho := "Canonical B", hsn := "", usage_unit := "" }),
   ("canonical b", { zoho := "Other", hsn := "9999", usage_unit := "kg" })]

/-- C10 mapping with the canonical-name entry removed. -/
def c10MappingPruned : NameMapping :=
  [("raw a", { zoho := "Canonical B", hsn := "", usage_unit := "" })]

/-- C10 item with raw name "Raw A". -/
def c10Item : LineItem := plainItem "Raw A"

/-! ### Helper lemmas -/

/-- Unrolling the flattening fold: the `k`-th processed order (0-based) is
handled with sequence number `s + k` — exactly what `enumFrom s` pairs it
with — and the final counter is `s` plus the number of processed orders. -/
theorem flatten_foldl_spec (mapping : NameMapping) (pfx : String) :
    ∀ (cs : List Order) (acc : List LedgerRow) (s : Nat),
      cs.foldl (flattenStep mapping pfx) (acc, s) =
        (acc ++ ((cs.enumFrom s).map fun p => processOrder mapping pfx p.1 p.2).flatten,
          s + cs.length) := by
  intro cs
  induction cs with
  | nil => intro acc s; simp
  | cons o rest ih =>
    intro acc s
    simp only [List.foldl_cons, flattenStep, ih, List.enumFrom_cons, List.map_cons,
      List.flatten_cons, List.length_cons]
    refine Prod.ext ?_ ?_
    · simp [List.append_assoc]
    · simp; omega

theorem flattenCompleted_spec (mapping : NameMapping) (pfx : String) (start : Nat)
    (cs : List Order) :
    flattenCompleted mapping pfx start cs =
      (((cs.enumFrom start).map fun p => processOrder mapping pfx p.1 p.2).flatten,
        start + cs.length) := by
  simpa [flattenCompleted] using flatten_foldl_spec mapping pfx cs [] start

/-- Every row built for an order carries that order's invoice number. -/
theorem processOrder_invoice (mapping : NameMapping) (pfx : String) (s : Nat) (o : Order) :
    ∀ r ∈ processOrder mapping pfx s o, r.invoiceNumber = invoiceNumberStr pfx s := by
  intro r hr
  simp only [processOrder, List.mem_map] at hr
  obtain ⟨it, -, rfl⟩ := hr
  rfl

theorem completedOrders_sorted (orders : List Order) :
    (completedOrders orders).Pairwise (fun a b => a.id ≤ b.id) := by
  have hs : (sortedOrders orders).Pairwise (fun a b => a.id ≤ b.id) := by
    have := @List.sorted_mergeSort Order (fun a b : Order => decide (a.id ≤ b.id))
      (fun a b c hab hbc => by
        simp only [decide_eq_true_eq] at *; omega)
      (fun a b => by
        simp only [Bool.or_eq_true, decide_eq_true_eq]; omega)
      orders
    exact this.imp (by simp)
  exact List.Pairwise.sublist (List.filter_sublist _) hs

theorem completedOrders_perm (orders : List Order) :
    (completedOrders orders).Perm (orders.filter isCompleted) :=
  (List.mergeSort_perm orders _).filter isCompleted

/-- Unrolling the Order Details fold. -/
theorem details_foldl_spec (pfx : String) :
    ∀ (cs : List Order) (acc : List DetailRow) (s : Nat),
      cs.foldl (detailStep pfx) (acc, s) =
        (acc ++ (cs.enumFrom s).map fun p => mkDetailRow pfx p.1 p.2, s + cs.length) := by
  intro cs
  induction cs with
  | nil => intro acc s; simp
  | cons o rest ih =>
    intro acc s
    simp only [List.foldl_cons, detailStep, ih, List.enumFrom_cons, List.map_cons,
      List.length_cons]
    refine Prod.ext ?_ ?_
    · simp
    · simp; omega

theorem orderDetailsRows_eq (pfx : String) (start : Nat) (cs : List Order) :
    orderDetailsRows pfx start cs =
      (cs.enumFrom start).map fun p => mkDetailRow pfx p.1 p.2 := by
  simp [orderDetailsRows, details_foldl_spec]

theorem totalRevenue_eq_sum (cs : List Order) :
    totalRevenueByOrderTotal cs = (cs.map netTotal).sum := by
  have h : ∀ (l : List Order) (a : ℚ),
      l.foldl (fun acc o => acc + netTotal o) a = a + (l.map netTotal).sum := by
    intro l
    induction l with
    | nil => intro a; simp
    | cons o rest ih => intro a; simp [ih, add_assoc]
  simpa [totalRevenueByOrderTotal] using h cs 0

/-! ### Claims -/

/-- C1: the orders selected for flattening are the completed ones in
ascending order-identifier order; pairing them with `enumFrom start`
shows the k-th processed order (0-based) is flattened with sequence
number `start + k`, i.e. invoice number `pfx ++ pad5 (start + k)` — the
counter advances exactly once per order (final value `start + count`),
never per line item, and every row of a given order carries that order's
invoice number.  With prefix "ECHE/2526/" and start sequence 608 the
first processed order receives invoice number "ECHE/2526/00608". -/
theorem c1_invoice_assignment (mapping : NameMapping) (pfx : String) (start : Nat)
    (orders : List Order) :
    (completedOrders orders).Pairwise (fun a b => a.id ≤ b.id) ∧
    (flattenCompleted mapping pfx start (completedOrders orders)).1 =
      (((completedOrders orders).enumFrom start).map
        fun p => processOrder mapping pfx p.1 p.2).flatten ∧
    (flattenCompleted mapping pfx start (completedOrders orders)).2 =
      start + (completedOrders orders).length ∧
    (∀ s o, (processOrder mapping pfx s o).all
      fun r => r.invoiceNumber == invoiceNumberStr pfx s) ∧
    invoiceNumberStr "ECHE/2526/" 608 = "ECHE/2526/00608" := by
  refine ⟨completedOrders_sorted orders, ?_, ?_, ?_, by decide⟩
  · rw [flattenCompleted_spec]
  · rw [flattenCompleted_spec]
  · intro s o
    rw [List.all_eq_true]
    intro r hr
    simpa using processOrder_invoice mapping pfx s o r hr

/-- C2: the flattener emits exactly one `LedgerRow` per line item of a
processed order, all rows of one order share that order's invoice
number, and an order with zero line items contributes no rows while the
sequence counter still advances past it. -/
theorem c2_rows_per_line_item (mapping : NameMapping) (pfx : String) :
    (∀ s o, (processOrder mapping pfx s o).length = (o.line_items.getD []).length) ∧
    (∀ s o, (processOrder mapping pfx s o).all
      fun r => r.invoiceNumber == invoiceNumberStr pfx s) ∧
    (∀ start o rest, o.line_items.getD [] = [] →
      flattenCompleted mapping pfx start (o :: rest) =
        flattenCompleted mapping pfx (start + 1) rest) := by
  refine ⟨fun s o => by simp [processOrder], ?_, ?_⟩
  · intro s o
    rw [List.all_eq_true]
    intro r hr
    simpa using processOrder_invoice mapping pfx s o r hr
  · intro start o rest h
    simp [flattenCompleted, flattenStep, processOrder, h]

/-- C3 counterexample: the claim resolves a refund's amount from the first
PRESENT of `amount`, `total`, `refund_total`; the code instead skips falsy
present values (`or`-chaining).  For a completed order with total 1000.00
and one refund carrying `amount = 0` (present) and `total = "200"`, the
code computes net revenue 800 while the claim's resolution rule yields
1000. -/
theorem c3_counterexample :
    totalRevenueByOrderTotal (completedOrders [c3CexOrder]) = 800 ∧
    netRevenueClaim (completedOrders [c3CexOrder]) = 1000 ∧
    (decide ((800 : ℚ) = 1000)) = false := by
  have hcs : completedOrders [c3CexOrder] = [c3CexOrder] := by
    simp [completedOrders, sortedOrders, show isCompleted c3CexOrder = true from by decide]
  have h1000 : parseFloatRep "1000.00" = some (100000, -2) := by decide
  have h200 : parseFloatRep "200" = some (200, 0) := by decide
  refine ⟨?_, ?_, by decide⟩
  · rw [hcs]
    simp [totalRevenueByOrderTotal, netTotal, refundTotalOf, c3CexOrder, c3CexRefund,
      refundAmount, optVal, pyOr, truthy, to_float, pyFloatOpt, parseDecimal, baseOrder,
      h1000, h200, ratOfRep]
    norm_num
  · rw [hcs]
    simp [netRevenueClaim, refundAmountFirstPresentClaim, c3CexOrder, c3CexRefund,
      to_float, pyFloatOpt, parseDecimal, baseOrder, h1000, ratOfRep]
    norm_num

/-- C3 amended: net revenue is the sum over completed orders of (order
total minus the refund total), where each refund's amount is resolved
from the first TRUTHY of `amount`, `total`, `refund_total` (absent, null,
empty-string and numeric-zero values are skipped), defaulting to 0; a
single completed order with total 1000.00 and one refund of 200.00 yields
net revenue 800.00. -/
theorem c3_amended_truthy_resolution :
    (∀ r, refundAmount r = refundAmountFirstTruthy r) ∧
    (∀ cs, totalRevenueByOrderTotal cs =
      (cs.map fun o => to_float (o.total.getD (.jnum 0)) -
        ((o.refunds.getD []).map refundAmountFirstTruthy).sum).sum) ∧
    totalRevenueByOrderTotal (completedOrders [c3GoodOrder]) = 800 := by
  have hr : ∀ r, refundAmount r = refundAmountFirstTruthy r := by
    intro r
    rcases h1 : truthy (optVal r.amount) <;> rcases h2 : truthy (optVal r.total) <;>
      rcases h3 : truthy (optVal r.refund_total) <;>
        simp [refundAmount, refundAmountFirstTruthy, pyOr, h1, h2, h3, to_float, pyFloatOpt]
  refine ⟨hr, ?_, ?_⟩
  · intro cs
    rw [totalRevenue_eq_sum]
    refine congrArg List.sum (List.map_congr_left ?_)
    intro o _
    simp [netTotal, refundTotalOf, funext hr]
  · have hcs : completedOrders [c3GoodOrder] = [c3GoodOrder] := by
      simp [completedOrders, sortedOrders, show isCompleted c3GoodOrder = true from by decide]
    have h1000 : parseFloatRep "1000.00" = some (100000, -2) := by decide
    have h200 : parseFloatRep "200.00" = some (20000, -2) := by decide
    rw [hcs]
    simp [totalRevenueByOrderTotal, netTotal, refundTotalOf, c3GoodOrder, refundAmount,
      optVal, pyOr, truthy, to_float, pyFloatOpt, parseDecimal, baseOrder, h1000, h200,
      ratOfRep]
    norm_num

/-- C4 counterexample: the claim says every overridden field (item name
included) is overridden only by a non-empty mapping value; but for a
mapping entry whose canonical (Zoho) name is empty, the code still
replaces the item's name with the empty string instead of keeping
"Protein Bar". -/
theorem c4_counterexample :
    (resolveItem c4CexMapping c4CexItem).name = "" ∧
    c4CexItem.name.getD "" = "Protein Bar" ∧
    (decide ((resolveItem c4CexMapping c4CexItem).name = c4CexItem.name.getD "")) = false := by
  refine ⟨by decide, by decide, by decide⟩

/-- C4 amended: on a case-insensitive (lowercase-stripped) raw-name match,
the output row's item name is overridden with the mapping's canonical name
unconditionally (even when that value is empty), while tax code (HSN) and
unit are overridden only when the mapping's value is non-empty; a
non-matching line item keeps all raw values.  Concretely, mapped tax code
"2106" overrides an item's empty tax-code metadata, an empty resolver tax
code leaves the item's own "0714" in place, and an unmapped item is
unchanged. -/
theorem c4_amended (mapping : NameMapping) (pfx : String) :
    (∀ s o, (processOrder mapping pfx s o).map (fun r => (r.itemName, r.hsnSac, r.usageUnit)) =
      (o.line_items.getD []).map fun it =>
        ((resolveItem mapping it).name, (resolveItem mapping it).hsn,
          (resolveItem mapping it).usage_unit)) ∧
    (∀ it e, lookupName mapping (itemNameKey it) = some e →
      resolveItem mapping it =
        { name := e.zoho
          hsn := if e.hsn = "" then (extractMeta (it.meta_data.getD [])).1 else e.hsn
          usage_unit :=
            if e.usage_unit = "" then (extractMeta (it.meta_data.getD [])).2
            else e.usage_unit }) ∧
    (∀ it, lookupName mapping (itemNameKey it) = none →
      resolveItem mapping it =
        { name := it.name.getD ""
          hsn := (extractMeta (it.meta_data.getD [])).1
          usage_unit := (extractMeta (it.meta_data.getD [])).2 }) ∧
    resolveItem demoMapping demoItemNoHsn =
      { name := "Protein Bar (50g)", hsn := "2106", usage_unit := "Nos" } ∧
    (resolveItem demoMappingEmpty demoItemHsn).hsn = "0714" ∧
    resolveItem demoMapping demoItemUnmapped =
      { name := "Granola", hsn := "", usage_unit := "" } := by
  refine ⟨?_, ?_, ?_, by decide, by decide, by decide⟩
  · intro s o
    simp only [processOrder, List.map_map]
    rfl
  · intro it e h
    unfold resolveItem
    rw [h]
    by_cases he : e.hsn = "" <;> by_cases hu : e.usage_unit = "" <;> simp [he, hu]
  · intro it h
    unfold resolveItem
    rw [h]

/-- Witness for `c4_amended`: both the matched and the unmatched branch
discharged at concrete inputs. -/
theorem c4_amended_witness :
    lookupName demoMapping (itemNameKey demoItemNoHsn) = some demoEntry ∧
    resolveItem demoMapping demoItemNoHsn =
      { name := demoEntry.zoho
        hsn :=
          if demoEntry.hsn = "" then (extractMeta (demoItemNoHsn.meta_data.getD [])).1
          else demoEntry.hsn
        usage_unit :=
          if demoEntry.usage_unit = "" then (extractMeta (demoItemNoHsn.meta_data.getD [])).2
          else demoEntry.usage_unit } ∧
    lookupName demoMapping (itemNameKey demoItemUnmapped) = none ∧
    resolveItem demoMapping demoItemUnmapped =
      { name := demoItemUnmapped.name.getD ""
        hsn := (extractMeta (demoItemUnmapped.meta_data.getD [])).1
        usage_unit := (extractMeta (demoItemUnmapped.meta_data.getD [])).2 } :=
  ⟨by decide,
    (c4_amended demoMapping "").2.1 demoItemNoHsn demoEntry (by decide),
    by decide,
    (c4_amended demoMapping "").2.2.1 demoItemUnmapped (by decide)⟩

/-- C5: the money coercion is a total function — null, the empty string
and unparsable strings coerce to 0, a parsable string coerces to its
numeric value, a number passes through — and it is exactly what the row
builder applies to the price, shipping-total and discount-total fields. -/
theorem c5_to_float_total (s : String) (q : ℚ) :
    to_float .jnull = 0 ∧
    to_float (.jstr "") = 0 ∧
    (parseDecimal s = none → to_float (.jstr s) = 0) ∧
    (parseDecimal s = some q → to_float (.jstr s) = q) ∧
    to_float (.jnum q) = q ∧
    (∀ mapping invNum o it,
      (buildRow mapping invNum o it).itemPrice = to_float (it.price.getD (.jnum 0)) ∧
      (buildRow mapping invNum o it).shippingCharge =
        to_float (o.shipping_total.getD (.jnum 0)) ∧
      (buildRow mapping invNum o it).entityDiscountAmount =
        to_float (o.discount_total.getD (.jnum 0))) := by
  refine ⟨by simp [to_float], by simp [to_float], ?_, ?_, by simp [to_float, pyFloatOpt],
    fun mapping invNum o it => ⟨rfl, rfl, rfl⟩⟩
  · intro h
    by_cases hs : s = ""
    · subst hs; simp [to_float]
    · simp [to_float, pyFloatOpt, h, hs]
  · intro h
    have hs : s ≠ "" := by
      intro hs
      rw [hs] at h
      exact Option.noConfusion ((show parseDecimal "" = none from by decide) ▸ h)
    simp [to_float, pyFloatOpt, h, hs]

/-- Witness for `c5_to_float_total`: an unparsable string coerces to 0 and
a parsable one to its value. -/
theorem c5_witness :
    parseDecimal "abc" = none ∧ to_float (.jstr "abc") = 0 ∧
    parseDecimal "12.5" = some (25 / 2) ∧ to_float (.jstr "12.5") = 25 / 2 := by
  have hnone : parseDecimal "abc" = none := by
    simp [parseDecimal, show parseFloatRep "abc" = none from by decide]
  have hsome : parseDecimal "12.5" = some (25 / 2) := by
    have hrep : parseFloatRep "12.5" = some (125, -1) := by decide
    simp [parseDecimal, hrep, ratOfRep]
    norm_num
  exact ⟨hnone, (c5_to_float_total "abc" 0).2.2.1 hnone, hsome,
    (c5_to_float_total "12.5" (25 / 2)).2.2.2.1 hsome⟩

/-- C6: a fetch that returns zero orders halts the pipeline with the
no-orders warning — which is neither the error path nor a producing run,
so no CSV, spreadsheet or archive artifact exists and no flattening or
aggregation output is carried. -/
theorem c6_empty_fetch_halts (mapping : NameMapping) (pfx : String) (start : Nat) :
    runPipeline mapping pfx start (.ok []) = .stoppedNoOrders ∧
    producesArtifacts (runPipeline mapping pfx start (.ok [])) = false ∧
    isFetchError (runPipeline mapping pfx start (.ok [])) = false :=
  ⟨rfl, rfl, rfl⟩

/-- Behaviour of the pagination loop against a resource whose pages
`page, page+1, ...` are the non-empty bodies in `ps` followed by either an
empty page or an HTTP failure. -/
theorem fetchLoop_spec (res : Nat → Except String (List Order)) :
    ∀ (ps : List (List Order)) (page : Nat) (acc : List Order) (reqs : List Nat) (fuel : Nat),
      (∀ l ∈ ps, l ≠ []) →
      (∀ i (h : i < ps.length), res (page + i) = .ok ps[i]) →
      ps.length < fuel →
      (res (page + ps.length) = .ok [] →
        fetchLoop res fuel page acc reqs =
          (reqs ++ List.range' page (ps.length + 1), some (.ok (acc ++ ps.flatten)))) ∧
      (∀ e, res (page + ps.length) = .error e →
        fetchLoop res fuel page acc reqs =
          (reqs ++ List.range' page (ps.length + 1), some (.error e))) := by
  intro ps
  induction ps with
  | nil =>
    intro page acc reqs fuel hne hpages hfuel
    obtain ⟨f, rfl⟩ : ∃ f, fuel = f + 1 := ⟨fuel - 1, by omega⟩
    constructor
    · intro hend
      simp only [List.length_nil, Nat.add_zero] at hend
      simp [fetchLoop, hend, List.range']
    · intro e hend
      simp only [List.length_nil, Nat.add_zero] at hend
      simp [fetchLoop, hend, List.range']
  | cons l ps ih =>
    intro page acc reqs fuel hne hpages hfuel
    obtain ⟨f, rfl⟩ : ∃ f, fuel = f + 1 := ⟨fuel - 1, by omega⟩
    have h0 : res page = .ok l := by simpa using hpages 0 (by simp)
    obtain ⟨x, xs, rfl⟩ : ∃ x xs, l = x :: xs := by
      cases l with
      | nil => exact absurd rfl (hne [] (by simp))
      | cons x xs => exact ⟨x, xs, rfl⟩
    have hrec := ih (page + 1) (acc ++ x :: xs) (reqs ++ [page]) f
      (fun l hl => hne l (by simp [hl]))
      (fun i hi => by
        have := hpages (i + 1) (by simpa using Nat.succ_lt_succ hi)
        have harith : page + (i + 1) = page + 1 + i := by omega
        simpa [harith] using this)
      (by simp at hfuel; omega)
    have harith2 : page + ((x :: xs) :: ps).length = page + 1 + ps.length := by
      simp; omega
    constructor
    · intro hend
      rw [harith2] at hend
      have hstep : fetchLoop res (f + 1) page acc reqs =
          fetchLoop res f (page + 1) (acc ++ x :: xs) (reqs ++ [page]) := by
        simp [fetchLoop, h0]
      rw [hstep, hrec.1 hend]
      simp [List.range']
    · intro e hend
      rw [harith2] at hend
      have hstep : fetchLoop res (f + 1) page acc reqs =
          fetchLoop res f (page + 1) (acc ++ x :: xs) (reqs ++ [page]) := by
        simp [fetchLoop, h0]
      rw [hstep, hrec.2 e hend]
      simp [List.range']

/-- C7: if the resource serves the non-empty pages `ps` at page numbers
1..N-1 and an empty page at N = `ps.length + 1`, the fetch loop (with
enough fuel) terminates, requests exactly the pages 1, 2, ..., N once
each in order (no retry, page number incremented by 1 per request at the
fixed page size 100), and returns the concatenation of every page before
the first empty page in request order; if instead page N fails, it
returns the transport error alone — no partial result. -/
theorem c7_pagination :
    (∀ (res : Nat → Except String (List Order)) (ps : List (List Order)) (fuel : Nat),
      (∀ l ∈ ps, l ≠ []) →
      (∀ i (h : i < ps.length), res (1 + i) = .ok ps[i]) →
      res (1 + ps.length) = .ok [] →
      ps.length < fuel →
      fetchAllOrders res fuel = (List.range' 1 (ps.length + 1), some (.ok ps.flatten))) ∧
    (∀ (res : Nat → Except String (List Order)) (ps : List (List Order)) (e : String)
        (fuel : Nat),
      (∀ l ∈ ps, l ≠ []) →
      (∀ i (h : i < ps.length), res (1 + i) = .ok ps[i]) →
      res (1 + ps.length) = .error e →
      ps.length < fuel →
      fetchAllOrders res fuel = (List.range' 1 (ps.length + 1), some (.error e))) ∧
    perPage = 100 := by
  refine ⟨?_, ?_, rfl⟩
  · intro res ps fuel hne hpages hend hfuel
    have := (fetchLoop_spec res ps 1 [] [] fuel hne hpages hfuel).1 hend
    simpa [fetchAllOrders] using this
  · intro res ps e fuel hne hpages hend hfuel
    have := (fetchLoop_spec res ps 1 [] [] fuel hne hpages hfuel).2 e hend
    simpa [fetchAllOrders] using this

/-- Witness for `c7_pagination`: a resource with one non-empty page then
an empty page, and one with one non-empty page then an HTTP failure. -/
theorem c7_witness :
    fetchAllOrders sampleResOk 3 = (List.range' 1 2, some (.ok [baseOrder])) ∧
    fetchAllOrders sampleResErr 3 = (List.range' 1 2, some (.error "HTTP 500")) := by
  have hne : ∀ l ∈ [[baseOrder]], l ≠ [] := by
    intro l hl
    simp only [List.mem_singleton] at hl
    subst hl
    simp
  have hpages1 : ∀ i (h : i < ([[baseOrder]] : List (List Order)).length),
      sampleResOk (1 + i) = .ok [[baseOrder]][i] := by
    intro i h
    have : i = 0 := by simpa using h
    subst this
    rfl
  have hpages2 : ∀ i (h : i < ([[baseOrder]] : List (List Order)).length),
      sampleResErr (1 + i) = .ok [[baseOrder]][i] := by
    intro i h
    have : i = 0 := by simpa using h
    subst this
    rfl
  constructor
  · have := c7_pagination.1 sampleResOk [[baseOrder]] 3 hne hpages1 rfl (by norm_num)
    simpa using this
  · have := c7_pagination.2.1 sampleResErr [[baseOrder]] "HTTP 500" 3 hne hpages2 rfl
      (by norm_num)
    simpa using this

/-- Witness for `c2_rows_per_line_item`: a three-item order yields three
rows, and an order with no line items yields no rows while the counter
still moves from 7 to 8. -/
theorem c2_witness :
    (processOrder [] "P/" 5 order3Items).length = 3 ∧
    baseOrder.line_items.getD [] = [] ∧
    flattenCompleted [] "P/" 7 [baseOrder] = flattenCompleted [] "P/" 8 [] := by
  refine ⟨?_, rfl, (c2_rows_per_line_item [] "P/").2.2 7 baseOrder [] rfl⟩
  exact ((c2_rows_per_line_item [] "P/").1 5 order3Items).trans (by rfl)

/-- C8: only completed-status orders (case-insensitive) consume
invoice-sequence slots — the processed list is a permutation of exactly
the completed orders, every processed order is completed, the counter
ends at `start` plus the number of completed orders, and an input with no
completed order processes nothing and leaves the counter at `start`. -/
theorem c8_only_completed (mapping : NameMapping) (pfx : String) (start : Nat)
    (orders : List Order) :
    (completedOrders orders).Perm (orders.filter isCompleted) ∧
    (completedOrders orders).all isCompleted ∧
    (flattenCompleted mapping pfx start (completedOrders orders)).2 =
      start + (orders.filter isCompleted).length ∧
    (orders.all (fun o => !isCompleted o) →
      completedOrders orders = [] ∧
      flattenCompleted mapping pfx start (completedOrders orders) = ([], start)) := by
  have hperm := completedOrders_perm orders
  refine ⟨hperm, ?_, ?_, ?_⟩
  · rw [List.all_eq_true]
    intro o ho
    exact (List.mem_filter.mp ho).2
  · rw [flattenCompleted_spec]
    simp [hperm.length_eq]
  · intro h
    have hf : orders.filter isCompleted = [] := by
      rw [List.filter_eq_nil_iff]
      intro a ha
      simpa using List.all_eq_true.mp h a ha
    have hnil : completedOrders orders = [] := (hf ▸ hperm).eq_nil
    exact ⟨hnil, by rw [hnil]; rfl⟩

/-- Witness for `c8_only_completed`: a processing-status order is skipped
entirely and the counter stays at 3. -/
theorem c8_witness :
    ([pendingOrder].all fun o => !isCompleted o) = true ∧
    completedOrders [pendingOrder] = [] ∧
    flattenCompleted [] "P/" 3 (completedOrders [pendingOrder]) = ([], 3) := by
  have h : ([pendingOrder].all fun o => !isCompleted o) = true := by decide
  have hc := (c8_only_completed [] "P/" 3 [pendingOrder]).2.2.2 h
  exact ⟨h, hc.1, hc.2⟩

/-- C9: the revenue figure computed by the summary pass equals the Grand
Total appended to the Order Details sheet — for every order list, and in
particular for the artifacts of every producing pipeline run. -/
theorem c9_revenue_agreement (pfx : String) (start : Nat) :
    (∀ cs, totalRevenueByOrderTotal cs = grandTotalOf (orderDetailsRows pfx start cs)) ∧
    (∀ mapping fetched a, runPipeline mapping pfx start fetched = .produced a →
      a.revenueMetric = a.grandTotal) := by
  have h1 : ∀ cs, totalRevenueByOrderTotal cs = grandTotalOf (orderDetailsRows pfx start cs) := by
    intro cs
    rw [totalRevenue_eq_sum, orderDetailsRows_eq, grandTotalOf, List.map_map]
    have hcomp : (DetailRow.orderTotal ∘ fun p : Nat × Order => mkDetailRow pfx p.1 p.2) =
        (netTotal ∘ Prod.snd) := rfl
    rw [hcomp, show (cs.enumFrom start).map (netTotal ∘ Prod.snd) =
      ((cs.enumFrom start).map Prod.snd).map netTotal from (List.map_map _ _ _).symm,
      List.enumFrom_map_snd]
  refine ⟨h1, ?_⟩
  intro mapping fetched a h
  cases fetched with
  | error e => simp [runPipeline] at h
  | ok l =>
    simp only [runPipeline] at h
    split_ifs at h
    all_goals
      first
        | exact RunOutcome.noConfusion h
        | (injection h with h2
           rw [← h2]
           exact h1 (completedOrders l))

/-- Witness for `c9_revenue_agreement`: a concrete single-order run whose
summary metric and grand total both evaluate to 10. -/
theorem c9_witness :
    runPipeline [] "P/" 1 (.ok [c9Order]) = .produced c9Art ∧
    c9Art.revenueMetric = c9Art.grandTotal := by
  have hcs : completedOrders [c9Order] = [c9Order] := by
    simp [completedOrders, sortedOrders, show isCompleted c9Order = true from by decide]
  have hrun : runPipeline [] "P/" 1 (.ok [c9Order]) = .produced c9Art := by
    simp only [runPipeline, hcs]
    rw [if_neg (by simp), if_neg (by simp)]
    rw [RunOutcome.produced.injEq]
    simp only [c9Art, Artifacts.mk.injEq]
    refine ⟨?_, ?_, ?_, ?_⟩
    · simp [flattenCompleted, flattenStep, processOrder, c9Order, baseOrder]
    · simp [totalRevenueByOrderTotal, netTotal, refundTotalOf, to_float, pyFloatOpt,
        c9Order, baseOrder]
    · simp [orderDetailsRows, detailStep]
    · simp [orderDetailsRows, detailStep, grandTotalOf, mkDetailRow, netTotal,
        refundTotalOf, to_float, pyFloatOpt, c9Order, baseOrder]
  exact ⟨hrun, (c9_revenue_agreement "P/" 1).2 [] (.ok [c9Order]) c9Art hrun⟩

/-- C10: whether and how the resolver applies to a line item depends only
on the mapping's value at the stripped lower-cased RAW name — two
mappings agreeing at that key resolve the item identically, so entries
keyed by the canonical (renamed) name are never consulted; concretely,
resolving "Raw A" under a mapping that also maps "canonical b" yields the
first entry's data ("Canonical B", no HSN), untouched by the second. -/
theorem c10_raw_name_keyed (m1 m2 : NameMapping) (it : LineItem)
    (h : lookupName m1 (itemNameKey it) = lookupName m2 (itemNameKey it)) :
    resolveItem m1 it = resolveItem m2 it ∧
    itemNameKey it = pyLower (pyStrip (it.name.getD "")) ∧
    (resolveItem c10Mapping c10Item).name = "Canonical B" ∧
    (resolveItem c10Mapping c10Item).hsn = "" := by
  refine ⟨?_, rfl, by decide, by decide⟩
  unfold resolveItem
  rw [h]

/-- Witness for `c10_raw_name_keyed`: deleting the canonical-name entry
from the mapping does not change the resolution of "Raw A". -/
theorem c10_witness :
    lookupName c10Mapping (itemNameKey c10Item) =
      lookupName c10MappingPruned (itemNameKey c10Item) ∧
    resolveItem c10Mapping c10Item = resolveItem c10MappingPruned c10Item :=
  ⟨by decide, (c10_raw_name_keyed c10Mapping c10MappingPruned c10Item (by decide)).1⟩


end WooExport
